import Mathlib

/-!
Shallow embedding of the conversational session orchestrator of the
`llama-hack` mobile chat client, together with proofs checking the
natural-language specification against the code.

Source files embedded here:
  * `src/hooks/useMessageHandling.ts` — the ChatLog (`addMessage` / `clearMessages`)
  * `src/functions/externalQueries.ts` — intent classification and
    external-query augmentation
  * `src/functions/webRTCEvents.ts` — the realtime event decoder
  * `src/functions/webRTCConnection.ts` — the voice-session lifecycle
    (`connectWebSocket` / `disconnectWebSocket`)
  * `src/components/camera/Camera.tsx` — the order flow (`handleSend`,
    `handleOrderRequest`, `isNoAllergiesResponse`, …)

Modelling conventions:
  * JavaScript strings are Lean `String`s; `String.prototype.includes`
    becomes `containsSubstring`, `toLowerCase` becomes `toLowerStr`
    (all keywords involved are ASCII, where the two agree).
  * A JS value of type `string | undefined` tested for truthiness is an
    `Option String` tested with `truthy` (both `undefined` and `""` are
    falsy in JS).
  * `async` collaborator calls (HTTP fetches, permission prompts, media
    acquisition, SDP negotiation, teardown of platform handles) are
    resolved by explicit environment records; an operation that may
    throw is an `Except`.  A `try …  catch` block becomes a `match` on
    the `Except` value of its body.
  * React state setters become explicit state passing on record types;
    `setMessages(prev => prev.slice(0, -1))` becomes `List.dropLast`.
  * `Date.now()` is an environment-supplied `Nat`.
-/

namespace LlamaHack

/-- `startsWithChars needle hay` is true iff `needle` occurs at the head of
`hay` (character lists). -/
def startsWithChars : List Char → List Char → Bool
  | [], _ => true
  | _ :: _, [] => false
  | c :: cs, d :: ds => c == d && startsWithChars cs ds

/-- `hasSubChars needle hay`: does `needle` occur contiguously anywhere in
`hay`? -/
def hasSubChars (needle : List Char) : List Char → Bool
  | [] => startsWithChars needle []
  | d :: ds => startsWithChars needle (d :: ds) || hasSubChars needle ds

/-- Model of JavaScript `hay.includes(needle)` on strings. -/
def containsSubstring (hay needle : String) : Bool :=
  hasSubChars needle.data hay.data

/-- ASCII-faithful model of JS `toLowerCase` (kernel-reducible, unlike
`String.toLower` whose byte-position internals do not reduce). -/
def toLowerStr (s : String) : String :=
  String.mk (s.data.map Char.toLower)

/-- Model of JS `String.prototype.trim` (strip leading and trailing
whitespace). -/
def trimStr (s : String) : String :=
  String.mk (((s.data.dropWhile Char.isWhitespace).reverse.dropWhile Char.isWhitespace).reverse)

/-- JS truthiness of a `string | undefined` value: `undefined` and the
empty string are falsy. -/
def truthy : Option String → Bool
  | none => false
  | some s => s ≠ ""

/-- The fixed keyword list of `containsExternalQueryKeywords`
(`externalQueries.ts`). -/
def externalQueryKeywords : List String :=
  ["location", "where is", "how to get to", "directions to", "address",
   "restaurant", "cafe", "diner", "eat", "food", "dining",
   "shop", "store", "mall", "buy", "purchase",
   "product", "item", "price", "cost",
   "weather", "temperature", "forecast", "rain", "sunny", "cloudy",
   "near me", "find", "search for", "cuisine", "restaurant type",
   "restaurant name", "shop name", "product name", "weather in",
   "cuisines"]

/-- `containsExternalQueryKeywords` from `externalQueries.ts`: substring
match of any keyword against the lowercased message. -/
def containsExternalQueryKeywords (message : String) : Bool :=
  let messageLower := toLowerStr message
  externalQueryKeywords.any (fun keyword => containsSubstring messageLower keyword)

/-- The query-type categories of `externalQueries.ts`. -/
inductive QueryType where
  | weather
  | restaurant
  | shop
  | general
deriving DecidableEq, Repr

/-- `getQueryType` from `externalQueries.ts`: fixed check order
weather → restaurant → shop → general. -/
def getQueryType (message : String) : QueryType :=
  let messageLower := toLowerStr message
  if containsSubstring messageLower "weather" || containsSubstring messageLower "temperature" ||
     containsSubstring messageLower "forecast" || containsSubstring messageLower "rain" ||
     containsSubstring messageLower "sunny" || containsSubstring messageLower "cloudy" then
    QueryType.weather
  else if containsSubstring messageLower "restaurant" || containsSubstring messageLower "cafe" ||
          containsSubstring messageLower "diner" || containsSubstring messageLower "eat" ||
          containsSubstring messageLower "food" || containsSubstring messageLower "dining" then
    QueryType.restaurant
  else if containsSubstring messageLower "shop" || containsSubstring messageLower "store" ||
          containsSubstring messageLower "mall" || containsSubstring messageLower "buy" ||
          containsSubstring messageLower "purchase" || containsSubstring messageLower "product" then
    QueryType.shop
  else
    QueryType.general

/-- The lookup-indicator list of `containsAILookupIndicator`, verbatim
from `externalQueries.ts` (mixed case as in the source; the message is
lowercased before matching but the indicators are not, so entries with an
upper-case letter can in fact never match — kept as-is for fidelity). -/
def aiLookupIndicators : List String :=
  ["I will check",
   "let me check",
   "I'll look up",
   "let me look up",
   "I will look up",
   "let me find",
   "I'll find",
   "I will find",
   "checking",
   "looking up",
   "searching for",
   "get back to you soon",
   "cuisine",
   "restaurant type",
   "restaurant name", "shop name", "product name", "weather in",
   "cuisines"]

/-- `containsAILookupIndicator` from `externalQueries.ts`. -/
def containsAILookupIndicator (message : String) : Bool :=
  let messageLower := toLowerStr message
  aiLookupIndicators.any (fun indicator => containsSubstring messageLower indicator)

/-- Case-insensitive literal match at the head: `pat` is given lowercase,
`hay` is original-case text (models the `/i` regex flag). -/
def startsWithCI : List Char → List Char → Bool
  | [], _ => true
  | _ :: _, [] => false
  | c :: cs, d :: ds => d.toLower == c && startsWithCI cs ds

/-- Lazy-group scan for a pattern `pre (.+?) post`: having consumed the
(case-insensitively matched) `pre`, accumulate the shortest non-empty
group `acc` until the literal `post` matches; `.` does not match a
newline, so the scan aborts at `'\n'`.  Returns the group (original
case), as JS `match[1]` does. -/
def scanLazyGroup (post : List Char) (acc : List Char) : List Char → Option (List Char)
  | [] => none
  | c :: cs =>
    if acc ≠ [] && startsWithCI post (c :: cs) then some acc
    else if c == '\n' then none
    else scanLazyGroup post (acc ++ [c]) cs

/-- Leftmost match of `pre (.+?) post` in `hay` (the semantics of
`hay.match(/pre (.+?) post/i)` for literal `pre`/`post`); yields the
captured group. -/
def matchLazyBetween (pre post : List Char) : List Char → Option (List Char)
  | [] => none
  | c :: cs =>
    if startsWithCI pre (c :: cs) then
      match scanLazyGroup post [] (List.drop pre.length (c :: cs)) with
      | some g => some g
      | none => matchLazyBetween pre post cs
    else
      matchLazyBetween pre post cs

/-- The eight extraction patterns of `extractQueryFromAIResponse`
(`externalQueries.ts`), each a literal prefix text and a literal
continuation text around the lazy capture group (patterns stored
lowercase; matching is case-insensitive). -/
def extractionPatterns : List (String × String) :=
  [("i will check ", " and get back to you"),
   ("let me check ", " for you"),
   ("i'll look up ", " and"),
   ("let me look up ", " and"),
   ("i will look up ", " and"),
   ("let me find ", " for you"),
   ("i'll find ", " for you"),
   ("i will find ", " for you")]

/-- `extractQueryFromAIResponse` from `externalQueries.ts`: try each
pattern in order; on a match return the trimmed captured group, otherwise
return the original response. -/
def extractQueryFromAIResponse (aiResponse : String) : String :=
  match extractionPatterns.findSome?
      (fun p => matchLazyBetween p.1.data p.2.data aiResponse.data) with
  | some g => trimStr (String.mk g)
  | none => aiResponse

/-- One organic search result consumed by `formatExternalQueryResponse`
(fields the code reads: `title`, `snippet`, `displayedLink`). -/
structure OrganicResult where
  title : String
  snippet : String
  displayedLink : String
deriving DecidableEq, Repr

/-- One immersive-product result (fields read: `title`, `price`,
`delivery` — optional/truthiness-tested — and `source`). -/
structure ImmersiveProduct where
  title : String
  price : String
  delivery : Option String
  source : String
deriving DecidableEq, Repr

/-- One related-search suggestion (field read: `query`). -/
structure RelatedSearch where
  query : String
deriving DecidableEq, Repr

/-- The shape of the HasData SERP response as far as the code reads it;
each section may be absent (`undefined` in JS). -/
structure SerpData where
  organicResults : Option (List OrganicResult)
  immersiveProducts : Option (List ImmersiveProduct)
  relatedSearches : Option (List RelatedSearch)
deriving DecidableEq, Repr

/-- The `externalData` attached to an external-query chat message:
`{data, queryType}`.  `data` is the raw API response (possibly `null`). -/
structure ExternalData where
  data : Option SerpData
  queryType : QueryType
deriving DecidableEq, Repr

/-- Chat message kinds: `'text' | 'audio' | 'external_query'`. -/
inductive MsgType where
  | text
  | audio
  | external_query
deriving DecidableEq, Repr

/-- One ChatLog entry (`Message` in `useMessageHandling.ts` /
`Camera.tsx`).  The id string `` `msg_${counter}_${Date.now()}` `` is kept
as its two numeric components `idCounter` and `idTime`. -/
structure Message where
  idCounter : Nat
  idTime : Nat
  text : String
  isUser : Bool
  type : MsgType
  externalData : Option ExternalData
  isMarkdown : Bool
deriving DecidableEq, Repr

/-- The ChatLog state: the message sequence and the monotonic id counter
(`messages` state plus `messageCounter` ref). -/
structure ChatState where
  messages : List Message
  messageCounter : Nat
deriving DecidableEq, Repr

/-- `addMessage` from `useMessageHandling.ts` (and its duplicate in
`Camera.tsx`): bump the counter, build the message — auto-detecting
markdown via `text.includes('**') || text.includes('##')` — and append
it.  `now` models `Date.now()`. -/
def addMessage (st : ChatState) (now : Nat) (text : String) (isUser : Bool)
    (type : MsgType) (externalData : Option ExternalData) (isMarkdown : Bool) :
    ChatState :=
  let counter := st.messageCounter + 1
  { messages := st.messages ++
      [{ idCounter := counter
         idTime := now
         text := text
         isUser := isUser
         type := type
         externalData := externalData
         isMarkdown := isMarkdown || containsSubstring text "**" || containsSubstring text "##" }]
    messageCounter := counter }

/-- `clearMessages` from `useMessageHandling.ts`: empty the sequence and
reset the counter to 0. -/
def clearMessages (_st : ChatState) : ChatState :=
  { messages := [], messageCounter := 0 }

/-- One ChatLog operation (the two operations the hook exposes). -/
inductive ChatOp where
  | add (now : Nat) (text : String) (isUser : Bool) (type : MsgType)
      (externalData : Option ExternalData) (isMarkdown : Bool)
  | clear
deriving Repr

/-- Apply one ChatLog operation. -/
def applyChatOp (st : ChatState) : ChatOp → ChatState
  | ChatOp.add now text isUser type externalData isMarkdown =>
      addMessage st now text isUser type externalData isMarkdown
  | ChatOp.clear => clearMessages st

/-- The empty initial ChatLog (`useState<Message[]>([])`, counter 0). -/
def chatInit : ChatState := { messages := [], messageCounter := 0 }

/-- Run a sequence of ChatLog operations from a given state. -/
def runChatOps (st : ChatState) (ops : List ChatOp) : ChatState :=
  ops.foldl applyChatOp st

/-- Outcome of the HTTP call inside `fetchExternalQueryResponse`:
`ok` is `response.ok`, `json` the parsed body (possibly `null`). -/
structure FetchEnv where
  ok : Bool
  json : Option SerpData
deriving DecidableEq, Repr

/-- `fetchExternalQueryResponse` from `externalQueries.ts`.  On
`!response.ok` the code throws (its own `catch` logs and re-throws), so
the HTTP-failure case surfaces as `Except.error` to the caller; on
success it returns the parsed JSON. -/
def fetchExternalQueryResponse (env : FetchEnv) : Except String (Option SerpData) :=
  if env.ok then Except.ok env.json
  else Except.error "API error"

/-- The `{text, data, queryType}` record `formatExternalQueryResponse`
returns. -/
structure FormattedResponse where
  text : String
  data : Option SerpData
  queryType : QueryType
deriving DecidableEq, Repr

/-- `formatExternalQueryResponse` from `externalQueries.ts`: `null`
response → fixed apology with `null` data; otherwise concatenate up to 3
organic results, up to 3 products, up to 3 related searches, falling back
to a fixed sentence when every section is empty. -/
def formatExternalQueryResponse (apiResponse : Option SerpData) (query : String) :
    FormattedResponse :=
  match apiResponse with
  | none =>
      { text := "Sorry, I couldn't retrieve that information."
        data := none
        queryType := QueryType.general }
  | some resp =>
      let queryType := getQueryType query
      let organicText :=
        match resp.organicResults with
        | some rs =>
            if rs.length > 0 then
              "🔍 **Search Results:**\n\n" ++
                String.join ((rs.take 3).enum.map (fun p =>
                  "**" ++ toString (p.1 + 1) ++ ". " ++ p.2.title ++ "**\n" ++
                    p.2.snippet ++ "\n🔗 " ++ p.2.displayedLink ++ "\n\n"))
            else ""
        | none => ""
      let productText :=
        match resp.immersiveProducts with
        | some ps =>
            if ps.length > 0 then
              "🛍️ **Featured Products:**\n\n" ++
                String.join ((ps.take 3).map (fun product =>
                  "**" ++ product.title ++ "**\n💰 " ++ product.price ++
                    (if truthy product.delivery then " • " ++ product.delivery.getD "" else "") ++
                    "\n📍 " ++ product.source ++ "\n\n"))
            else ""
        | none => ""
      let relatedText :=
        match resp.relatedSearches with
        | some ss =>
            if ss.length > 0 then
              "💡 **Related Searches:**\n" ++
                String.join ((ss.take 3).map (fun search => "• " ++ search.query ++ "\n"))
            else ""
        | none => ""
      let formattedText := organicText ++ productText ++ relatedText
      { text := if formattedText = "" then
                  "I found some information, but couldn't format it properly."
                else formattedText
        data := some resp
        queryType := queryType }

/-- One invocation of the `addMessage` callback, with the argument
defaults of the TS signature (`type = 'text'`, `externalData =
undefined`, `isMarkdown = false`) filled in at each call site. -/
structure AddMessageCall where
  text : String
  isUser : Bool
  type : MsgType
  externalData : Option ExternalData
  isMarkdown : Bool
deriving DecidableEq, Repr

/-- Result of `handleAIResponse` (`webRTCEvents.ts`): the `addMessage`
calls it makes and the queries it passes to
`fetchExternalQueryResponse`. -/
structure AIResponseResult where
  calls : List AddMessageCall
  queriesSent : List String
deriving DecidableEq, Repr

/-- `handleAIResponse` from `webRTCEvents.ts`: append the assistant text
(markdown on), then — if it matches `containsExternalQueryKeywords` —
show a loading message and fetch/format the external query, appending
either the formatted `external_query` message or, when the fetch throws,
the fixed apology.  Note the query passed to the fetch is `responseText`
itself, the raw utterance. -/
def handleAIResponse (env : FetchEnv) (responseText : String) : AIResponseResult :=
  let base : List AddMessageCall :=
    [{ text := responseText, isUser := false, type := MsgType.text,
       externalData := none, isMarkdown := true }]
  if containsExternalQueryKeywords responseText then
    let loading : AddMessageCall :=
      { text := "🔍 Let me get more detailed information...", isUser := false,
        type := MsgType.text, externalData := none, isMarkdown := false }
    match fetchExternalQueryResponse env with
    | Except.ok apiResponse =>
        let formattedResponse := formatExternalQueryResponse apiResponse responseText
        { calls := base ++ [loading,
            { text := formattedResponse.text, isUser := false,
              type := MsgType.external_query,
              externalData := some { data := formattedResponse.data,
                                     queryType := formattedResponse.queryType },
              isMarkdown := true }]
          queriesSent := [responseText] }
    | Except.error _ =>
        { calls := base ++ [loading,
            { text := "❌ Sorry, I couldn't retrieve additional information right now.",
              isUser := false, type := MsgType.text, externalData := none,
              isMarkdown := false }]
          queriesSent := [responseText] }
  else
    { calls := base, queriesSent := [] }

/-- The fields of an inbound realtime event that `handleOpenAIEvent`
reads (`OpenAIMessage` is `{type: string, [key: string]: any}` in the
source; every other key is ignored). -/
structure ContentPart where
  text : Option String
deriving DecidableEq, Repr

/-- The `error` payload of an `error` event (`error?.message`). -/
structure ErrorInfo where
  message : Option String
deriving DecidableEq, Repr

/-- An inbound realtime event as far as the decoder reads it. -/
structure OpenAIMessage where
  type : String
  part : Option ContentPart
  transcript : Option String
  text : Option String
  error : Option ErrorInfo
deriving DecidableEq, Repr

/-- Raw data-channel payload: either malformed JSON (on which
`JSON.parse` throws) or a well-formed event object. -/
inductive WireData where
  | malformed
  | wellFormed (msg : OpenAIMessage)
deriving DecidableEq, Repr

/-- What one `handleOpenAIEvent` call did: the `addMessage` calls made,
the assistant-utterance texts forwarded to `handleAIResponse` (the
"assistant utterance received" hook), and the external queries sent. -/
structure DecoderResult where
  calls : List AddMessageCall
  utterances : List String
  queriesSent : List String
deriving DecidableEq, Repr

/-- The decoder result of a log-only or dropped event. -/
def emptyDecoderResult : DecoderResult :=
  { calls := [], utterances := [], queriesSent := [] }

/-- Lift an `handleAIResponse` call into a decoder result, recording the
one utterance forwarded. -/
def decoderAIResponse (env : FetchEnv) (text : String) : DecoderResult :=
  let r := handleAIResponse env text
  { calls := r.calls, utterances := [text], queriesSent := r.queriesSent }

/-- The event tags the `switch` in `handleOpenAIEvent`
(`webRTCEvents.ts`) has a case for. -/
def recognizedEventTypes : List String :=
  ["session.created", "session.updated",
   "input_audio_buffer.speech_started", "input_audio_buffer.speech_stopped",
   "conversation.item.created", "response.created",
   "response.output_item.added", "response.content_part.added",
   "response.content_part.done", "response.audio_transcript.done",
   "response.text.done", "response.done", "error"]

/-- `handleOpenAIEvent` from `webRTCEvents.ts`: parse the payload (a
parse failure is caught, producing nothing) and dispatch on the `type`
tag; log-only tags and unrecognized tags produce nothing; the three
`…done` tags forward their text to `handleAIResponse` when present and
non-empty (JS truthiness); `error` appends one error chat message. -/
def handleOpenAIEvent (env : FetchEnv) (event : WireData) : DecoderResult :=
  match event with
  | WireData.malformed => emptyDecoderResult
  | WireData.wellFormed message =>
    if message.type = "session.created" then emptyDecoderResult
    else if message.type = "session.updated" then emptyDecoderResult
    else if message.type = "input_audio_buffer.speech_started" then emptyDecoderResult
    else if message.type = "input_audio_buffer.speech_stopped" then emptyDecoderResult
    else if message.type = "conversation.item.created" then emptyDecoderResult
    else if message.type = "response.created" then emptyDecoderResult
    else if message.type = "response.output_item.added" then emptyDecoderResult
    else if message.type = "response.content_part.added" then emptyDecoderResult
    else if message.type = "response.content_part.done" then
      match message.part with
      | some part =>
          if truthy part.text then decoderAIResponse env (part.text.getD "")
          else emptyDecoderResult
      | none => emptyDecoderResult
    else if message.type = "response.audio_transcript.done" then
      if truthy message.transcript then decoderAIResponse env (message.transcript.getD "")
      else emptyDecoderResult
    else if message.type = "response.text.done" then
      if truthy message.text then decoderAIResponse env (message.text.getD "")
      else emptyDecoderResult
    else if message.type = "response.done" then emptyDecoderResult
    else if message.type = "error" then
      let errText :=
        match message.error with
        | some e => if truthy e.message then e.message.getD "" else "Unknown error"
        | none => "Unknown error"
      { calls := [{ text := "❌ AI Error: " ++ errText, isUser := false,
                    type := MsgType.text, externalData := none, isMarkdown := false }]
        utterances := []
        queriesSent := [] }
    else emptyDecoderResult

/-- The guard under which the decoder forwards an assistant utterance to
`handleAIResponse` (used to state that exactly one callback fires per
qualifying event). -/
def firesUtteranceCallback (message : OpenAIMessage) : Bool :=
  (message.type == "response.content_part.done" &&
    (match message.part with
     | some part => truthy part.text
     | none => false))
  || (message.type == "response.audio_transcript.done" && truthy message.transcript)
  || (message.type == "response.text.done" && truthy message.text)

deriving instance DecidableEq for Except

/-- `ConnectionStatus` from `webRTCTypes.ts`:
`'notConnect' | 'connecting' | 'connected'`. -/
inductive ConnectionStatus where
  | notConnect
  | connecting
  | connected
deriving DecidableEq, Repr

/-- The mutable session state `connectWebSocket` / `disconnectWebSocket`
operate on: the status plus the three exclusively-owned handles
(`setPeerConnection` / `setDataChannel` setters and `localStreamRef`).
Handles are opaque ids; `pcCreated` counts `new RTCPeerConnection`
constructions; `chat` records the `addMessage` calls; `audioRouting`
models `InCallManager` being started. -/
structure RTCState where
  connectStatus : ConnectionStatus
  peerConnection : Option Nat
  dataChannel : Option Nat
  localStream : Option Nat
  pcCreated : Nat
  chat : List AddMessageCall
  audioRouting : Bool
deriving DecidableEq, Repr

/-- The initial (idle) session state. -/
def rtcInit : RTCState :=
  { connectStatus := ConnectionStatus.notConnect
    peerConnection := none
    dataChannel := none
    localStream := none
    pcCreated := 0
    chat := []
    audioRouting := false }

/-- Append one plain-text `addMessage` call to the session chat. -/
def rtcAddMessage (st : RTCState) (text : String) : RTCState :=
  { st with chat := st.chat ++
      [{ text := text, isUser := false, type := MsgType.text,
         externalData := none, isMarkdown := false }] }

/-- Outcomes of the awaited collaborator calls inside `connectWebSocket`,
in program order: the microphone permission prompt (a `catch` inside
`requestAudioPermission` also yields `false`); the session-credential
fetch (throws or yields `secretDict?.client_secret?.value`, an optional
string); `mediaDevices.getUserMedia` (throws or yields a stream with a
track count, `0` also covering a null stream); `pc.createOffer` (throws
or yields an offer whose `sdp` is an optional string);
`pc.setLocalDescription` (its own `try`/`catch`); and the SDP exchange
`sendSDPToServer` (fetch plus `setRemoteDescription`, which throws to
the outer `catch` on failure). -/
structure ConnectEnv where
  permissionGranted : Bool
  secretKey : Except String (Option String)
  mediaTracks : Except String Nat
  offerSdp : Except String (Option String)
  setLocalOk : Bool
  sdpExchangeOk : Bool
deriving DecidableEq, Repr

/-- The outer `catch` of `connectWebSocket`: revert the status and report
the error as a chat message. -/
def connectCatch (st : RTCState) (errMessage : String) : RTCState :=
  rtcAddMessage { st with connectStatus := ConnectionStatus.notConnect }
    ("❌ Connection error: " ++ errMessage)

/-- `connectWebSocket` from `webRTCConnection.ts`, step by step:
guard (no-op unless `notConnect`), set `connecting`, request permission,
fetch the session credential, construct the peer connection, acquire
local audio, register handlers and create the data channel (the handler
closures themselves are elided), publish both handles via the setters,
create and validate the SDP offer (`m=audio` required), set the local
description, then exchange SDP using the credential; only then is the
status set to `connected`.  Every failure path reverts the status to
`notConnect` and appends one failure message; none of the failure paths
clears the already-published handles. -/
def connectWebSocket (env : ConnectEnv) (st : RTCState) : RTCState :=
  if st.connectStatus ≠ ConnectionStatus.notConnect then st
  else
    let st := { st with connectStatus := ConnectionStatus.connecting }
    if ¬ env.permissionGranted then
      rtcAddMessage { st with connectStatus := ConnectionStatus.notConnect }
        "❌ Microphone permission required for voice chat"
    else
      match env.secretKey with
      | Except.error e => connectCatch st e
      | Except.ok clientSecretVal =>
        let st := { st with pcCreated := st.pcCreated + 1 }
        match env.mediaTracks with
        | Except.error e => connectCatch st e
        | Except.ok nTracks =>
          if nTracks = 0 then
            rtcAddMessage { st with connectStatus := ConnectionStatus.notConnect }
              "❌ Failed to access microphone"
          else
            let st := { st with localStream := some nTracks }
            let st := { st with peerConnection := some st.pcCreated,
                                dataChannel := some st.pcCreated }
            match env.offerSdp with
            | Except.error e => connectCatch st e
            | Except.ok sdp =>
              if ¬ (truthy sdp && containsSubstring (sdp.getD "") "m=audio") then
                rtcAddMessage { st with connectStatus := ConnectionStatus.notConnect }
                  "❌ Failed to create audio connection"
              else if ¬ env.setLocalOk then
                rtcAddMessage { st with connectStatus := ConnectionStatus.notConnect }
                  "❌ Connection failed"
              else if truthy clientSecretVal then
                if env.sdpExchangeOk then
                  { st with connectStatus := ConnectionStatus.connected }
                else connectCatch st "SDP exchange failed"
              else
                rtcAddMessage { st with connectStatus := ConnectionStatus.notConnect }
                  "❌ Authentication failed"

/-- Whether each teardown step of `disconnectWebSocket` completes without
throwing: stopping the local tracks, closing the data channel, closing
the peer connection, and stopping the platform audio manager. -/
structure DisconnectEnv where
  stopTracksOk : Bool
  channelCloseOk : Bool
  pcCloseOk : Bool
  inCallStopOk : Bool
deriving DecidableEq, Repr

/-- The environment in which no teardown step throws. -/
def cleanDisconnectEnv : DisconnectEnv :=
  { stopTracksOk := true, channelCloseOk := true, pcCloseOk := true,
    inCallStopOk := true }

/-- The `try` body of `disconnectWebSocket`: each step either completes
(updating the state) or throws, carrying the state reached so far to the
`catch`; the status is forced to `notConnect` only as the body's final
step. -/
def disconnectBody (env : DisconnectEnv) (st : RTCState) : Except RTCState RTCState := do
  let st ← if st.localStream.isSome then
             if env.stopTracksOk then pure { st with localStream := none }
             else Except.error st
           else pure st
  let st ← if st.dataChannel.isSome then
             if env.channelCloseOk then pure { st with dataChannel := none }
             else Except.error st
           else pure st
  let st ← if st.peerConnection.isSome then
             if env.pcCloseOk then pure { st with peerConnection := none }
             else Except.error st
           else pure st
  let st ← if env.inCallStopOk then pure { st with audioRouting := false }
           else Except.error st
  pure { st with connectStatus := ConnectionStatus.notConnect }

/-- `disconnectWebSocket` from `webRTCConnection.ts`: run the teardown
body; any exception is caught and reported as one non-fatal chat message
(and nothing after the throwing step — including the status reset — is
executed).  The function itself never throws. -/
def disconnectWebSocket (env : DisconnectEnv) (st : RTCState) : RTCState :=
  match disconnectBody env st with
  | Except.ok st' => st'
  | Except.error st' => rtcAddMessage st' "❌ Error disconnecting: teardown failed"

/-- The order-keyword list of `containsOrderKeywords` (`Camera.tsx`). -/
def orderKeywords : List String :=
  ["order for me",
   "order selected food",
   "order selected",
   "place order",
   "i want to order",
   "order these",
   "order this",
   "place my order",
   "order food",
   "make order",
   "place an order"]

/-- `containsOrderKeywords` from `Camera.tsx`. -/
def containsOrderKeywords (message : String) : Bool :=
  let messageLower := toLowerStr message
  orderKeywords.any (fun keyword => containsSubstring messageLower keyword)

/-- The clarification-response keyword list of `isOrderResponseMessage`
(`Camera.tsx`). -/
def orderResponseKeywords : List String :=
  ["no allergies", "allergic to", "i have allergy", "dietary restriction",
   "vegetarian", "vegan", "gluten free", "no customization", "extra",
   "no onions", "spicy", "mild", "sauce on side", "well done",
   "medium rare", "no dairy", "nut allergy", "shellfish allergy",
   "proceed with order", "place the order", "ready to order",
   "no allergic", "no special requests", "everything is fine",
   "proceed", "continue"]

/-- `isOrderResponseMessage` from `Camera.tsx`. -/
def isOrderResponseMessage (message : String) : Bool :=
  let messageLower := toLowerStr message
  orderResponseKeywords.any (fun keyword => containsSubstring messageLower keyword)

/-- The finalize-without-clarification keyword list of
`isNoAllergiesResponse` (`Camera.tsx`). -/
def noAllergiesKeywords : List String :=
  ["no allergies", "no allergy", "no allergic", "no dietary restriction",
   "no special requests", "no customization", "proceed with order",
   "place the order", "ready to order", "everything is fine",
   "looks good", "proceed", "continue"]

/-- `isNoAllergiesResponse` from `Camera.tsx`. -/
def isNoAllergiesResponse (message : String) : Bool :=
  let messageLower := toLowerStr message
  noAllergiesKeywords.any (fun keyword => containsSubstring messageLower keyword)

/-- One selected menu item, with the fields the order flow reads. -/
structure OrderItem where
  item_name_english : String
  item_name_foreign : String
  price_usd : String
deriving DecidableEq, Repr

/-- The order-flow state of `Camera.tsx` (`orderState`).  In the source
all four fields are optional; `awaitingResponse` is only ever
truthiness-tested (so `undefined ≡ false`) and `userResponses` is only
read as `orderState.userResponses || []` (so `undefined ≡ []`), which
the model exploits; the two item lists keep their optionality because
the code distinguishes `undefined` from an (truthy) empty array. -/
structure OrderState where
  selectedItems : Option (List OrderItem)
  awaitingResponse : Bool
  userResponses : List String
  lastSelectedItems : Option (List OrderItem)
deriving DecidableEq, Repr

/-- The initial `{}` order state. -/
def orderInit : OrderState :=
  { selectedItems := none, awaitingResponse := false,
    userResponses := [], lastSelectedItems := none }

/-- The chat-screen state `handleSend` operates on: the ChatLog plus the
order-flow state. -/
structure CameraState where
  chat : ChatState
  orderState : OrderState
deriving DecidableEq, Repr

/-- `addMessage` as called from `Camera.tsx` handlers (threads the
camera state). -/
def camAddMessage (st : CameraState) (now : Nat) (text : String) (isUser : Bool)
    (type : MsgType) (externalData : Option ExternalData) (isMarkdown : Bool) :
    CameraState :=
  { st with chat := addMessage st.chat now text isUser type externalData isMarkdown }

/-- `setMessages(prev => prev.slice(0, -1))`: drop the just-shown
loading/processing message (the id counter is not rolled back). -/
def dropLastMessage (st : CameraState) : CameraState :=
  { st with chat := { st.chat with messages := st.chat.messages.dropLast } }

/-- Outcomes of the awaited collaborator calls inside `handleSend` /
`handleOrderRequest`: `Date.now()`, the instruction-generation Llama
call (`generateCookingInstructions` — the prompt it builds from the
selection and preferences does not constrain the collaborator's reply,
which the environment supplies), the follow-up Llama call, the plain
chat Llama call, the order-assistance Llama call, and the external-query
fetch. -/
structure SendEnv where
  now : Nat
  genInstructions : Except String String
  llamaFollowUp : Except String String
  llamaChat : Except String String
  llamaOrder : Except String String
  fetch : FetchEnv
deriving DecidableEq, Repr

/-- `handleOrderRequest` from `Camera.tsx`: show a processing message;
resolve the items to use (an explicitly passed selection, else the
remembered `lastSelectedItems`); with a non-empty selection, replace the
order state (remembering the selection) and prompt for allergy and
customization questions; with only a free-text command, replace the
order state with an empty selection; then ask the Llama collaborator and
swap the processing message for its reply (or for a fixed error
message when the call throws). -/
def handleOrderRequest (env : SendEnv) (st : CameraState)
    (selectedItems : Option (List OrderItem)) (userMessage : Option String) :
    CameraState :=
  let st := camAddMessage st env.now
    "🛒 I can help you place an order! Let me ask you a few questions first..."
    false MsgType.text none false
  let itemsToUse :=
    match selectedItems with
    | none =>
        match st.orderState.lastSelectedItems with
        | some l => if l.length > 0 then some l else none
        | none => none
    | some l => some l
  let st :=
    match itemsToUse with
    | some l =>
        if l.length > 0 then
          { st with orderState :=
              { selectedItems := some l, lastSelectedItems := some l,
                awaitingResponse := true, userResponses := [] } }
        else if truthy userMessage then
          { st with orderState :=
              { selectedItems := none, lastSelectedItems := none,
                awaitingResponse := true, userResponses := [] } }
        else st
    | none =>
        if truthy userMessage then
          { st with orderState :=
              { selectedItems := none, lastSelectedItems := none,
                awaitingResponse := true, userResponses := [] } }
        else st
  match env.llamaOrder with
  | Except.ok llamaResponse =>
      camAddMessage (dropLastMessage st) env.now llamaResponse false
        MsgType.text none true
  | Except.error _ =>
      camAddMessage (dropLastMessage st) env.now
        "❌ Sorry, I encountered an error processing your order request. Please try again."
        false MsgType.text none false

/-- `handleSend` from `Camera.tsx`: ignore blank input; append the user
message; then dispatch — (1) while awaiting order clarification, a
message matching `isOrderResponseMessage` is accumulated, and either
finalizes the order (generating cooking instructions, exactly one
finalized message, clearing the awaiting flag but keeping the selection)
when `isNoAllergiesResponse` holds with a non-empty selection or when
any selection exists with at least one accumulated response, or else
triggers a follow-up question; (2) an order command enters
`handleOrderRequest`; (3) an external-query message fetches and formats
search results (fixed apology on failure); (4) anything else goes to the
plain Llama chat. -/
def handleSend (env : SendEnv) (st : CameraState) (inputText : String) :
    CameraState :=
  if trimStr inputText = "" then st
  else
    let messageText := trimStr inputText
    let st := camAddMessage st env.now messageText true MsgType.text none false
    if st.orderState.awaitingResponse && isOrderResponseMessage messageText then
      let updatedResponses := st.orderState.userResponses ++ [messageText]
      let st := { st with orderState :=
                    { st.orderState with userResponses := updatedResponses } }
      if isNoAllergiesResponse messageText &&
         (match st.orderState.selectedItems with
          | some l => l.length > 0
          | none => false) then
        let st := camAddMessage st env.now
          "👨‍🍳 Perfect! Creating detailed instructions for the chef and waiter..."
          false MsgType.text none false
        match env.genInstructions with
        | Except.ok cookingInstructions =>
            let st := dropLastMessage st
            let st := camAddMessage st env.now
              ("## 👨‍🍳 **ORDER PROCESSING COMPLETE**\n\n" ++ cookingInstructions)
              false MsgType.text none true
            { st with orderState := { st.orderState with awaitingResponse := false } }
        | Except.error _ =>
            camAddMessage st env.now
              "❌ Sorry, I encountered an error processing your order details. Please try again."
              false MsgType.text none false
      else if st.orderState.selectedItems.isSome && updatedResponses.length > 0 then
        let st := camAddMessage st env.now
          "👨‍🍳 Thank you for the details! Creating customized instructions for the chef and waiter..."
          false MsgType.text none false
        match env.genInstructions with
        | Except.ok cookingInstructions =>
            let st := dropLastMessage st
            let st := camAddMessage st env.now
              ("## 👨‍🍳 **ORDER PROCESSING COMPLETE**\n\n" ++ cookingInstructions)
              false MsgType.text none true
            { st with orderState := { st.orderState with awaitingResponse := false } }
        | Except.error _ =>
            camAddMessage st env.now
              "❌ Sorry, I encountered an error processing your order details. Please try again."
              false MsgType.text none false
      else
        match env.llamaFollowUp with
        | Except.ok followUpResponse =>
            camAddMessage st env.now followUpResponse false MsgType.text none true
        | Except.error _ =>
            camAddMessage st env.now
              "❌ Sorry, I encountered an error processing your order details. Please try again."
              false MsgType.text none false
    else if containsOrderKeywords messageText then
      handleOrderRequest env st none (some messageText)
    else if containsExternalQueryKeywords messageText then
      let st := camAddMessage st env.now "🔍 Looking that up for you..." false
        MsgType.text none false
      match fetchExternalQueryResponse env.fetch with
      | Except.ok apiResponse =>
          let formattedResponse := formatExternalQueryResponse apiResponse messageText
          let st := dropLastMessage st
          camAddMessage st env.now formattedResponse.text false
            MsgType.external_query
            (some { data := formattedResponse.data,
                    queryType := formattedResponse.queryType }) true
      | Except.error _ =>
          let st := dropLastMessage st
          camAddMessage st env.now
            "❌ Sorry, I couldn't retrieve that information right now."
            false MsgType.text none false
    else
      let st := camAddMessage st env.now "🦙 Llama is thinking..." false
        MsgType.text none false
      match env.llamaChat with
      | Except.ok llamaResponse =>
          camAddMessage (dropLastMessage st) env.now llamaResponse false
            MsgType.text none true
      | Except.error _ =>
          camAddMessage (dropLastMessage st) env.now
            "❌ Sorry, I encountered an error processing your message. Please try again."
            false MsgType.text none false

/-- The initial chat-screen state (empty log, `{}` order state). -/
def cameraInit : CameraState := { chat := chatInit, orderState := orderInit }

/-- The ChatLog invariant maintained by `addMessage` / `clearMessages`:
message id counters are strictly increasing along the sequence and all
are bounded by the current counter. -/
def chatCounterInv (st : ChatState) : Prop :=
  List.Chain' (fun a b => a.idCounter < b.idCounter) st.messages ∧
  ∀ m ∈ st.messages, m.idCounter ≤ st.messageCounter

/-! ## Theorems -/

theorem chatCounterInv_applyChatOp {st : ChatState} (h : chatCounterInv st)
    (op : ChatOp) : chatCounterInv (applyChatOp st op) := by
  obtain ⟨hchain, hbound⟩ := h
  cases op with
  | clear => exact ⟨List.chain'_nil, by simp [applyChatOp, clearMessages]⟩
  | add now text isUser type externalData isMarkdown =>
      constructor
      · simp only [applyChatOp, addMessage]
        rw [List.chain'_append]
        refine ⟨hchain, List.chain'_singleton _, ?_⟩
        intro x hx y hy
        simp only [List.head?_cons, Option.mem_def, Option.some.injEq] at hy
        subst hy
        have hxmem : x ∈ st.messages := by
          rcases List.mem_getLast?_eq_getLast hx with ⟨hne, hx'⟩
          subst hx'
          exact List.getLast_mem hne
        have := hbound x hxmem
        simp only []
        omega
      · intro m hm
        simp only [applyChatOp, addMessage, List.mem_append,
          List.mem_singleton] at hm
        rcases hm with hm | hm
        · exact Nat.le_succ_of_le (hbound m hm)
        · subst hm; simp [applyChatOp, addMessage]

theorem chatCounterInv_runChatOps (ops : List ChatOp) :
    ∀ st : ChatState, chatCounterInv st → chatCounterInv (runChatOps st ops) := by
  induction ops with
  | nil => intro st h; exact h
  | cons op ops ih =>
      intro st h
      exact ih (applyChatOp st op) (chatCounterInv_applyChatOp h op)

/-- C1: ChatLog messages are appended once and never mutated or deleted
by the two log operations; ids (their counter components) are strictly
increasing in append order since the last clear; and `clearMessages`
empties the sequence and resets the counter to its initial value `0`.
Conjunct 1 shows each `addMessage` extends the sequence with exactly one
entry (whose counter strictly exceeds the bound on all earlier entries),
leaving every earlier entry in place; conjunct 2 shows the strict
increase along any `addMessage`/`clearMessages` history from the initial
log; conjunct 3 is the clear behaviour. -/
theorem chatlog_append_only_monotonic_clear :
    (∀ (st : ChatState) (now : Nat) (text : String) (isUser : Bool)
        (type : MsgType) (externalData : Option ExternalData) (isMarkdown : Bool),
      (addMessage st now text isUser type externalData isMarkdown).messages =
        st.messages ++
          [{ idCounter := st.messageCounter + 1
             idTime := now
             text := text
             isUser := isUser
             type := type
             externalData := externalData
             isMarkdown := isMarkdown || containsSubstring text "**" ||
               containsSubstring text "##" }]) ∧
    (∀ ops : List ChatOp,
      List.Chain' (fun a b => a.idCounter < b.idCounter)
        (runChatOps chatInit ops).messages) ∧
    (∀ st : ChatState, clearMessages st = { messages := [], messageCounter := 0 }) := by
  refine ⟨fun st now text isUser type externalData isMarkdown => rfl, ?_, fun st => rfl⟩
  intro ops
  exact (chatCounterInv_runChatOps ops chatInit ⟨List.chain'_nil, by simp [chatInit]⟩).1

/-- C10: the stored markdown-render flag of every message appended by
`addMessage` equals `callerIsMarkdown || text.includes("**") ||
text.includes("##")`; in particular a caller passing `isMarkdown =
false` cannot suppress markdown for a text containing `**` or `##`
(second conjunct). -/
theorem addMessage_markdown_autodetect :
    (∀ (st : ChatState) (now : Nat) (text : String) (isUser : Bool)
        (type : MsgType) (externalData : Option ExternalData) (isMarkdown : Bool),
      ((addMessage st now text isUser type externalData isMarkdown).messages.getLast?).map
          Message.isMarkdown =
        some (isMarkdown || containsSubstring text "**" || containsSubstring text "##")) ∧
    (∀ (st : ChatState) (now : Nat) (text : String) (isUser : Bool)
        (type : MsgType) (externalData : Option ExternalData),
      ((addMessage st now text isUser type externalData false).messages.getLast?).map
          Message.isMarkdown =
        some (containsSubstring text "**" || containsSubstring text "##")) := by
  constructor
  · intro st now text isUser type externalData isMarkdown
    simp [addMessage, List.getLast?_concat]
  · intro st now text isUser type externalData
    simp [addMessage, List.getLast?_concat]

/-- C7: the decoder is total and non-throwing — `handleOpenAIEvent` is a
total function into `DecoderResult` (the `try`/`catch` maps a JSON parse
failure to the silent empty result), a malformed payload produces no
chat message and no callback, and an event whose `type` tag is outside
the recognized set produces no chat message and no callback. -/
theorem handleOpenAIEvent_total_and_silent :
    ∀ (env : FetchEnv) (event : WireData),
      (event = WireData.malformed →
        handleOpenAIEvent env event = emptyDecoderResult) ∧
      (∀ m : OpenAIMessage, event = WireData.wellFormed m →
        m.type ∉ recognizedEventTypes →
        handleOpenAIEvent env event = emptyDecoderResult) := by
  intro env event
  constructor
  · rintro rfl; rfl
  · rintro m rfl hmem
    simp only [recognizedEventTypes, List.mem_cons, List.not_mem_nil, or_false,
      not_or] at hmem
    obtain ⟨h1, h2, h3, h4, h5, h6, h7, h8, h9, h10, h11, h12, h13⟩ := hmem
    simp [handleOpenAIEvent, h1, h2, h3, h4, h5, h6, h7, h8, h9, h10, h11, h12, h13]

/-- Witness for C7 at a concrete unrecognized event and a malformed
payload. -/
theorem handleOpenAIEvent_total_and_silent_witness :
    handleOpenAIEvent { ok := true, json := none }
        (WireData.wellFormed
          { type := "response.unknown_tag", part := none, transcript := none,
            text := none, error := none }) = emptyDecoderResult ∧
    handleOpenAIEvent { ok := true, json := none } WireData.malformed =
      emptyDecoderResult := by
  refine ⟨?_, ?_⟩
  · exact (handleOpenAIEvent_total_and_silent { ok := true, json := none }
      (WireData.wellFormed
        { type := "response.unknown_tag", part := none, transcript := none,
          text := none, error := none })).2 _ rfl (by decide)
  · exact (handleOpenAIEvent_total_and_silent { ok := true, json := none }
      WireData.malformed).1 rfl

/-- C2 counterexample: two well-formed events of the same logical turn —
`response.audio_transcript.done` and `response.text.done`, each carrying
the full utterance text — fire the "assistant utterance received"
callback once each, so processing both fires it twice, not exactly
once. -/
theorem decoder_double_delivery_counterexample :
    (handleOpenAIEvent { ok := true, json := none }
        (WireData.wellFormed
          { type := "response.audio_transcript.done", part := none,
            transcript := some "Hello there, nice to meet you.", text := none,
            error := none })).utterances = ["Hello there, nice to meet you."] ∧
    (handleOpenAIEvent { ok := true, json := none }
        (WireData.wellFormed
          { type := "response.text.done", part := none, transcript := none,
            text := some "Hello there, nice to meet you.",
            error := none })).utterances = ["Hello there, nice to meet you."] ∧
    ((handleOpenAIEvent { ok := true, json := none }
        (WireData.wellFormed
          { type := "response.audio_transcript.done", part := none,
            transcript := some "Hello there, nice to meet you.", text := none,
            error := none })).utterances ++
      (handleOpenAIEvent { ok := true, json := none }
        (WireData.wellFormed
          { type := "response.text.done", part := none, transcript := none,
            text := some "Hello there, nice to meet you.",
            error := none })).utterances).length ≠ 1 := by
  refine ⟨rfl, rfl, by decide⟩

/-- C2 amended: the decoder fires the "assistant utterance received"
callback exactly once per *event* that qualifies (a
`response.content_part.done` with a non-empty `part.text`, a
`response.audio_transcript.done` with a non-empty `transcript`, or a
`response.text.done` with a non-empty `text`) and never otherwise; there
is no per-turn deduplication, so a logical turn delivered through n of
these tags fires the callback n times. -/
theorem decoder_callback_once_per_qualifying_event :
    ∀ (env : FetchEnv) (m : OpenAIMessage),
      (handleOpenAIEvent env (WireData.wellFormed m)).utterances.length =
        if firesUtteranceCallback m then 1 else 0 := by
  intro env m
  by_cases hA : m.type = "response.content_part.done"
  · cases hp : m.part with
    | none =>
        simp [handleOpenAIEvent, firesUtteranceCallback, hA, hp, emptyDecoderResult]
    | some part =>
        by_cases htx : truthy part.text
        · simp [handleOpenAIEvent, firesUtteranceCallback, hA, hp, htx,
            decoderAIResponse]
        · simp [handleOpenAIEvent, firesUtteranceCallback, hA, hp, htx,
            emptyDecoderResult]
  · by_cases hB : m.type = "response.audio_transcript.done"
    · by_cases htr : truthy m.transcript
      · simp [handleOpenAIEvent, firesUtteranceCallback, hA, hB, htr,
          decoderAIResponse]
      · simp [handleOpenAIEvent, firesUtteranceCallback, hA, hB, htr,
          emptyDecoderResult]
    · by_cases hC : m.type = "response.text.done"
      · by_cases htt : truthy m.text
        · simp [handleOpenAIEvent, firesUtteranceCallback, hA, hB, hC, htt,
            decoderAIResponse]
        · simp [handleOpenAIEvent, firesUtteranceCallback, hA, hB, hC, htt,
            emptyDecoderResult]
      · have hrhs : firesUtteranceCallback m = false := by
          simp [firesUtteranceCallback, hA, hB, hC]
        rw [hrhs]
        by_cases h1 : m.type = "session.created"
        · simp [handleOpenAIEvent, h1, emptyDecoderResult]
        by_cases h2 : m.type = "session.updated"
        · simp [handleOpenAIEvent, h2, emptyDecoderResult]
        by_cases h3 : m.type = "input_audio_buffer.speech_started"
        · simp [handleOpenAIEvent, h3, emptyDecoderResult]
        by_cases h4 : m.type = "input_audio_buffer.speech_stopped"
        · simp [handleOpenAIEvent, h4, emptyDecoderResult]
        by_cases h5 : m.type = "conversation.item.created"
        · simp [handleOpenAIEvent, h5, emptyDecoderResult]
        by_cases h6 : m.type = "response.created"
        · simp [handleOpenAIEvent, h6, emptyDecoderResult]
        by_cases h7 : m.type = "response.output_item.added"
        · simp [handleOpenAIEvent, h7, emptyDecoderResult]
        by_cases h8 : m.type = "response.content_part.added"
        · simp [handleOpenAIEvent, h8, emptyDecoderResult]
        by_cases h9 : m.type = "response.done"
        · simp [handleOpenAIEvent, h9, emptyDecoderResult]
        by_cases h10 : m.type = "error"
        · simp [handleOpenAIEvent, h10, emptyDecoderResult]
        simp [handleOpenAIEvent, h1, h2, h3, h4, h5, h6, h7, h8, h9, h10,
          hA, hB, hC, emptyDecoderResult]

/-- C8 counterexample: for the assistant utterance `"I will check nearby
sushi restaurants and get back to you soon"`, `handleAIResponse` does
trigger augmentation, but the query it sends to the search collaborator
is the raw utterance itself — not the extracted topic
`"nearby sushi restaurants"` that `extractQueryFromAIResponse` (never
invoked on this path) would produce. -/
theorem sushi_raw_query_counterexample :
    (handleAIResponse { ok := true, json := none }
        "I will check nearby sushi restaurants and get back to you soon").queriesSent =
      ["I will check nearby sushi restaurants and get back to you soon"] ∧
    extractQueryFromAIResponse
        "I will check nearby sushi restaurants and get back to you soon" =
      "nearby sushi restaurants" ∧
    ("I will check nearby sushi restaurants and get back to you soon" : String) ≠
      "nearby sushi restaurants" := by
  refine ⟨by decide, by decide, by decide⟩

/-- C8 amended: the utterance `"I will check nearby sushi restaurants
and get back to you soon"` is detected — it matches both the
external-query keyword set (`containsExternalQueryKeywords`, the
predicate `handleAIResponse` actually consults, here via `"restaurant"`)
and the lookup-indicator set (`containsAILookupIndicator`, which the
dispatch never consults) — and augmentation is triggered, appending
exactly one external-query message; but the query sent to the search
collaborator is the raw utterance, while `extractQueryFromAIResponse`
(which would yield `"nearby sushi restaurants"`) is not applied. -/
theorem sushi_detection_raw_query_amended :
    containsExternalQueryKeywords
        "I will check nearby sushi restaurants and get back to you soon" = true ∧
    containsAILookupIndicator
        "I will check nearby sushi restaurants and get back to you soon" = true ∧
    (handleAIResponse
        { ok := true,
          json := some { organicResults := none, immersiveProducts := none,
                         relatedSearches := none } }
        "I will check nearby sushi restaurants and get back to you soon").queriesSent =
      ["I will check nearby sushi restaurants and get back to you soon"] ∧
    ((handleAIResponse
        { ok := true,
          json := some { organicResults := none, immersiveProducts := none,
                         relatedSearches := none } }
        "I will check nearby sushi restaurants and get back to you soon").calls.countP
      (fun c => decide (c.type = MsgType.external_query))) = 1 ∧
    extractQueryFromAIResponse
        "I will check nearby sushi restaurants and get back to you soon" =
      "nearby sushi restaurants" := by
  refine ⟨by decide, by decide, by decide, by decide, by decide⟩

/-- C3: on HTTP failure of the external search collaborator the
augmenter boundary returns the fixed apology with a null structured
payload and lets no exception escape.  Conjunct 1: the inner
`fetchExternalQueryResponse` re-throws on a non-ok response (the
exception that must be contained).  Conjunct 2: `formatExternalQueryResponse`
of a null response is the fixed apology with `data = null`.
Conjunct 3: at the augmenter boundary — the external-query branch of
`handleSend` — a failing fetch results in a normal state (no exception:
`handleSend` is a total function whose `catch` produced the result),
whose only appended assistant message is the fixed apology text carrying
no structured payload, with the order state untouched. -/
theorem externalQuery_http_failure_apology :
    (∀ env : FetchEnv, env.ok = false →
      (fetchExternalQueryResponse env).isOk = false) ∧
    (∀ query : String,
      formatExternalQueryResponse none query =
        { text := "Sorry, I couldn't retrieve that information."
          data := none
          queryType := QueryType.general }) ∧
    (∀ (env : SendEnv) (st : CameraState) (inputText : String),
      env.fetch.ok = false →
      st.orderState.awaitingResponse = false →
      containsOrderKeywords (trimStr inputText) = false →
      containsExternalQueryKeywords (trimStr inputText) = true →
      trimStr inputText ≠ "" →
      (handleSend env st inputText).chat.messages =
          st.chat.messages ++
            [{ idCounter := st.chat.messageCounter + 1
               idTime := env.now
               text := trimStr inputText
               isUser := true
               type := MsgType.text
               externalData := none
               isMarkdown := containsSubstring (trimStr inputText) "**" ||
                 containsSubstring (trimStr inputText) "##" },
             { idCounter := st.chat.messageCounter + 3
               idTime := env.now
               text := "❌ Sorry, I couldn't retrieve that information right now."
               isUser := false
               type := MsgType.text
               externalData := none
               isMarkdown := false }] ∧
        (handleSend env st inputText).orderState = st.orderState) := by
  refine ⟨?_, ?_, ?_⟩
  · intro env h
    simp [fetchExternalQueryResponse, h, Except.isOk, Except.toBool]
  · intro query
    rfl
  · intro env st inputText hfetch hawait horder hext hne
    have hfetch' : fetchExternalQueryResponse env.fetch = Except.error "API error" := by
      simp [fetchExternalQueryResponse, hfetch]
    simp [handleSend, hne, hawait, horder, hext, hfetch', camAddMessage,
      addMessage, dropLastMessage, List.dropLast_concat]
    exact ⟨by decide, by decide⟩

/-- Witness for C3: the concrete input `"What's the weather in Paris?"`
against a failing search collaborator, from the initial screen state. -/
theorem externalQuery_http_failure_apology_witness :
    (handleSend
        { now := 7, genInstructions := Except.ok "", llamaFollowUp := Except.ok "",
          llamaChat := Except.ok "", llamaOrder := Except.ok "",
          fetch := { ok := false, json := none } }
        cameraInit "What's the weather in Paris?").chat.messages =
      cameraInit.chat.messages ++
        [{ idCounter := cameraInit.chat.messageCounter + 1
           idTime := 7
           text := trimStr "What's the weather in Paris?"
           isUser := true
           type := MsgType.text
           externalData := none
           isMarkdown := containsSubstring (trimStr "What's the weather in Paris?") "**" ||
             containsSubstring (trimStr "What's the weather in Paris?") "##" },
         { idCounter := cameraInit.chat.messageCounter + 3
           idTime := 7
           text := "❌ Sorry, I couldn't retrieve that information right now."
           isUser := false
           type := MsgType.text
           externalData := none
           isMarkdown := false }] ∧
    (handleSend
        { now := 7, genInstructions := Except.ok "", llamaFollowUp := Except.ok "",
          llamaChat := Except.ok "", llamaOrder := Except.ok "",
          fetch := { ok := false, json := none } }
        cameraInit "What's the weather in Paris?").orderState = cameraInit.orderState :=
  externalQuery_http_failure_apology.2.2
    { now := 7, genInstructions := Except.ok "", llamaFollowUp := Except.ok "",
      llamaChat := Except.ok "", llamaOrder := Except.ok "",
      fetch := { ok := false, json := none } }
    cameraInit "What's the weather in Paris?"
    rfl rfl (by decide) (by decide) (by decide)

/-- C9: with a non-empty remembered selection and the
awaiting-clarification flag set, one user message matching
`isOrderResponseMessage` and containing `"no allergies"` appends (beyond
the echoed user message) exactly one finalized-instructions chat message
— the transient processing message is removed again — clears the
awaiting flag, and retains both the selection and the remembered
selection (the message is also accumulated into `userResponses`). -/
theorem order_finalization_no_allergies :
    ∀ (env : SendEnv) (st : CameraState) (items : List OrderItem) (msg instr : String),
      st.orderState.selectedItems = some items →
      st.orderState.awaitingResponse = true →
      st.orderState.lastSelectedItems = some items →
      items ≠ [] →
      trimStr msg = msg →
      msg ≠ "" →
      containsSubstring (toLowerStr msg) "no allergies" = true →
      env.genInstructions = Except.ok instr →
      ((handleSend env st msg).chat.messages.map
          (fun m => (m.text, m.isUser, m.type, m.externalData)) =
        st.chat.messages.map (fun m => (m.text, m.isUser, m.type, m.externalData)) ++
          [(msg, true, MsgType.text, none),
           ("## 👨‍🍳 **ORDER PROCESSING COMPLETE**\n\n" ++ instr, false,
             MsgType.text, none)]) ∧
      (handleSend env st msg).orderState.awaitingResponse = false ∧
      (handleSend env st msg).orderState.selectedItems = some items ∧
      (handleSend env st msg).orderState.lastSelectedItems = some items ∧
      (handleSend env st msg).orderState.userResponses =
        st.orderState.userResponses ++ [msg] := by
  intro env st items msg instr hsel hawait hlast hitems htrim hne hsub hgen
  have hresp : isOrderResponseMessage msg = true := by
    refine List.any_eq_true.mpr ⟨"no allergies", by decide, hsub⟩
  have hnoall : isNoAllergiesResponse msg = true := by
    refine List.any_eq_true.mpr ⟨"no allergies", by decide, hsub⟩
  have hlen : 0 < items.length := List.length_pos.mpr hitems
  simp [handleSend, htrim, hne, hawait, hresp, hnoall, hsel, hlast, hlen, hgen,
    camAddMessage, addMessage, dropLastMessage, List.dropLast_concat]

/-- Witness for C9: one selected item, awaiting clarification, user says
`"I have no allergies"`, the instruction collaborator replies. -/
theorem order_finalization_no_allergies_witness :
    (0 : Nat) < 1 ∧
    ((handleSend
        { now := 3, genInstructions := Except.ok "Cook the noodles gently.",
          llamaFollowUp := Except.ok "", llamaChat := Except.ok "",
          llamaOrder := Except.ok "", fetch := { ok := true, json := none } }
        { chat := chatInit,
          orderState :=
            { selectedItems := some [{ item_name_english := "Pad Thai",
                                       item_name_foreign := "pad thai",
                                       price_usd := "12.99" }],
              awaitingResponse := true, userResponses := [],
              lastSelectedItems := some [{ item_name_english := "Pad Thai",
                                           item_name_foreign := "pad thai",
                                           price_usd := "12.99" }] } }
        "I have no allergies").chat.messages.map
        (fun m => (m.text, m.isUser, m.type, m.externalData)) =
      chatInit.messages.map (fun m => (m.text, m.isUser, m.type, m.externalData)) ++
        [("I have no allergies", true, MsgType.text, none),
         ("## 👨‍🍳 **ORDER PROCESSING COMPLETE**\n\n" ++ "Cook the noodles gently.",
           false, MsgType.text, none)]) ∧
    (handleSend
        { now := 3, genInstructions := Except.ok "Cook the noodles gently.",
          llamaFollowUp := Except.ok "", llamaChat := Except.ok "",
          llamaOrder := Except.ok "", fetch := { ok := true, json := none } }
        { chat := chatInit,
          orderState :=
            { selectedItems := some [{ item_name_english := "Pad Thai",
                                       item_name_foreign := "pad thai",
                                       price_usd := "12.99" }],
              awaitingResponse := true, userResponses := [],
              lastSelectedItems := some [{ item_name_english := "Pad Thai",
                                           item_name_foreign := "pad thai",
                                           price_usd := "12.99" }] } }
        "I have no allergies").orderState.awaitingResponse = false := by
  have h := order_finalization_no_allergies
    { now := 3, genInstructions := Except.ok "Cook the noodles gently.",
      llamaFollowUp := Except.ok "", llamaChat := Except.ok "",
      llamaOrder := Except.ok "", fetch := { ok := true, json := none } }
    { chat := chatInit,
      orderState :=
        { selectedItems := some [{ item_name_english := "Pad Thai",
                                   item_name_foreign := "pad thai",
                                   price_usd := "12.99" }],
          awaitingResponse := true, userResponses := [],
          lastSelectedItems := some [{ item_name_english := "Pad Thai",
                                       item_name_foreign := "pad thai",
                                       price_usd := "12.99" }] } }
    [{ item_name_english := "Pad Thai", item_name_foreign := "pad thai",
       price_usd := "12.99" }]
    "I have no allergies" "Cook the noodles gently."
    rfl rfl rfl (by decide) (by decide) (by decide) (by decide) rfl
  exact ⟨Nat.zero_lt_one, h.1, h.2.1⟩

/-- C6: `connect()` invoked while the status is `connecting` or
`connected` is a no-op — the guard returns before any effect, so status,
both handles, the chat, and the peer-connection construction count are
all unchanged (the whole state is returned as-is); and any single
`connectWebSocket` call constructs at most one peer connection, so a
second call issued while the first is `connecting` (and therefore a
no-op by the first conjunct) leaves the total at most one. -/
theorem connectWebSocket_noop_when_busy :
    (∀ (env : ConnectEnv) (st : RTCState),
      st.connectStatus = ConnectionStatus.connecting ∨
        st.connectStatus = ConnectionStatus.connected →
      connectWebSocket env st = st) ∧
    (∀ (env : ConnectEnv) (st : RTCState),
      (connectWebSocket env st).pcCreated ≤ st.pcCreated + 1) := by
  constructor
  · intro env st h
    have hne : st.connectStatus ≠ ConnectionStatus.notConnect := by
      rcases h with h | h <;> simp [h]
    simp [connectWebSocket, hne]
  · intro env st
    by_cases hg : st.connectStatus ≠ ConnectionStatus.notConnect
    · simp [connectWebSocket, hg]
    · simp only [connectWebSocket, hg, if_false]
      repeat' split
      all_goals simp [rtcAddMessage, connectCatch]

/-- Witness for C6 at a concrete busy state (status `connecting`). -/
theorem connectWebSocket_noop_when_busy_witness :
    connectWebSocket
        { permissionGranted := true, secretKey := Except.ok (some "sk"),
          mediaTracks := Except.ok 1, offerSdp := Except.ok (some "m=audio"),
          setLocalOk := true, sdpExchangeOk := true }
        { rtcInit with connectStatus := ConnectionStatus.connecting } =
      { rtcInit with connectStatus := ConnectionStatus.connecting } ∧
    (connectWebSocket
        { permissionGranted := true, secretKey := Except.ok (some "sk"),
          mediaTracks := Except.ok 1, offerSdp := Except.ok (some "m=audio"),
          setLocalOk := true, sdpExchangeOk := true }
        { rtcInit with connectStatus := ConnectionStatus.connecting }).pcCreated ≤
      { rtcInit with connectStatus := ConnectionStatus.connecting }.pcCreated + 1 :=
  ⟨connectWebSocket_noop_when_busy.1
      { permissionGranted := true, secretKey := Except.ok (some "sk"),
        mediaTracks := Except.ok 1, offerSdp := Except.ok (some "m=audio"),
        setLocalOk := true, sdpExchangeOk := true }
      { rtcInit with connectStatus := ConnectionStatus.connecting }
      (Or.inl rfl),
    connectWebSocket_noop_when_busy.2
      { permissionGranted := true, secretKey := Except.ok (some "sk"),
        mediaTracks := Except.ok 1, offerSdp := Except.ok (some "m=audio"),
        setLocalOk := true, sdpExchangeOk := true }
      { rtcInit with connectStatus := ConnectionStatus.connecting }⟩

/-- C4 counterexample: a fully reachable run of `connectWebSocket` from
the idle initial state — permission granted, credential obtained, one
audio track, but an SDP offer without an `m=audio` section — ends with
status `notConnect` while both the peer-connection and data-channel
handles are still non-null, refuting "handles are non-null iff status ≠
idle" on the failure exits of `connect`. -/
theorem connect_failure_leaves_handles_counterexample :
    (connectWebSocket
        { permissionGranted := true, secretKey := Except.ok (some "sk"),
          mediaTracks := Except.ok 1, offerSdp := Except.ok (some "v=0"),
          setLocalOk := true, sdpExchangeOk := true } rtcInit).connectStatus =
      ConnectionStatus.notConnect ∧
    (connectWebSocket
        { permissionGranted := true, secretKey := Except.ok (some "sk"),
          mediaTracks := Except.ok 1, offerSdp := Except.ok (some "v=0"),
          setLocalOk := true, sdpExchangeOk := true } rtcInit).peerConnection.isSome =
      true ∧
    (connectWebSocket
        { permissionGranted := true, secretKey := Except.ok (some "sk"),
          mediaTracks := Except.ok 1, offerSdp := Except.ok (some "v=0"),
          setLocalOk := true, sdpExchangeOk := true } rtcInit).dataChannel.isSome =
      true := by
  refine ⟨by decide, by decide, by decide⟩

/-- C4 amended: only one direction of the claimed iff survives, and only
for the `connected` status — a `connectWebSocket` call from idle that
ends `connected` has published both handles; and a clean
`disconnectWebSocket` nulls both handles with status `notConnect`.  The
iff itself fails: during `connecting` the handles may still be null, and
the failure exits of `connect` taken after handle publication leave
non-null handles with status `notConnect`
(see the counterexample). -/
theorem connected_implies_handles_amended :
    (∀ (env : ConnectEnv) (st : RTCState),
      st.connectStatus = ConnectionStatus.notConnect →
      (connectWebSocket env st).connectStatus = ConnectionStatus.connected →
      (connectWebSocket env st).peerConnection.isSome = true ∧
        (connectWebSocket env st).dataChannel.isSome = true) ∧
    (∀ st : RTCState,
      (disconnectWebSocket cleanDisconnectEnv st).connectStatus =
          ConnectionStatus.notConnect ∧
        (disconnectWebSocket cleanDisconnectEnv st).peerConnection = none ∧
        (disconnectWebSocket cleanDisconnectEnv st).dataChannel = none) := by
  constructor
  · intro env st h
    have hg : ¬ st.connectStatus ≠ ConnectionStatus.notConnect := by simp [h]
    simp only [connectWebSocket, hg, if_false]
    repeat' split
    all_goals intro hc
    all_goals simp_all [rtcAddMessage, connectCatch]
  · intro st
    obtain ⟨cs, pc, dc, ls, n, ch, ar⟩ := st
    cases pc <;> cases dc <;> cases ls <;>
      simp [disconnectWebSocket, disconnectBody, cleanDisconnectEnv, Except.bind, Except.pure, pure, bind, Except.instMonad]

/-- Witness for C4 at a concrete successful connection from idle. -/
theorem connected_implies_handles_amended_witness :
    (connectWebSocket
        { permissionGranted := true, secretKey := Except.ok (some "sk"),
          mediaTracks := Except.ok 1, offerSdp := Except.ok (some "v=0 m=audio"),
          setLocalOk := true, sdpExchangeOk := true } rtcInit).connectStatus =
      ConnectionStatus.connected ∧
    ((connectWebSocket
        { permissionGranted := true, secretKey := Except.ok (some "sk"),
          mediaTracks := Except.ok 1, offerSdp := Except.ok (some "v=0 m=audio"),
          setLocalOk := true, sdpExchangeOk := true } rtcInit).peerConnection.isSome =
        true ∧
      (connectWebSocket
        { permissionGranted := true, secretKey := Except.ok (some "sk"),
          mediaTracks := Except.ok 1, offerSdp := Except.ok (some "v=0 m=audio"),
          setLocalOk := true, sdpExchangeOk := true } rtcInit).dataChannel.isSome =
        true) ∧
    (disconnectWebSocket cleanDisconnectEnv rtcInit).peerConnection = none :=
  ⟨by decide,
   connected_implies_handles_amended.1
     { permissionGranted := true, secretKey := Except.ok (some "sk"),
       mediaTracks := Except.ok 1, offerSdp := Except.ok (some "v=0 m=audio"),
       setLocalOk := true, sdpExchangeOk := true } rtcInit rfl (by decide),
   (connected_implies_handles_amended.2 rtcInit).2.1⟩

/-- C5 counterexample: from a connected state, a teardown in which
closing the data channel throws is caught and reported as exactly one
chat message — but the status reset is skipped, so `disconnect()` does
not force the status to idle, refuting the conjunction of "forces status
to idle for every prior state" with "any internal error is caught and
reported as a non-fatal chat message". -/
theorem disconnect_error_keeps_status_counterexample :
    (disconnectWebSocket
        { stopTracksOk := true, channelCloseOk := false, pcCloseOk := true,
          inCallStopOk := true }
        { connectStatus := ConnectionStatus.connected, peerConnection := some 1,
          dataChannel := some 1, localStream := some 1, pcCreated := 1,
          chat := [], audioRouting := true }).connectStatus =
      ConnectionStatus.connected ∧
    (disconnectWebSocket
        { stopTracksOk := true, channelCloseOk := false, pcCloseOk := true,
          inCallStopOk := true }
        { connectStatus := ConnectionStatus.connected, peerConnection := some 1,
          dataChannel := some 1, localStream := some 1, pcCreated := 1,
          chat := [], audioRouting := true }).chat.length = 1 := by
  refine ⟨by decide, by decide⟩

/-- C5 amended: `disconnect()` never throws (it is a total function; its
`catch` converts every teardown error into one non-fatal chat message,
the second conjunct), and when no teardown step throws it stops the
local tracks, closes and nulls the data channel and the peer connection,
stops platform audio routing, and forces the status to `notConnect`
regardless of prior state (first conjunct); but when a step does throw,
the steps after it — including the status reset — are skipped, so the
status is only forced to idle on throw-free teardowns. -/
theorem disconnect_teardown_amended :
    (∀ st : RTCState,
      disconnectWebSocket cleanDisconnectEnv st =
        { connectStatus := ConnectionStatus.notConnect, peerConnection := none,
          dataChannel := none, localStream := none, pcCreated := st.pcCreated,
          chat := st.chat, audioRouting := false }) ∧
    (∀ (env : DisconnectEnv) (st : RTCState),
      (disconnectWebSocket env st).chat = st.chat ∨
        (disconnectWebSocket env st).chat =
          st.chat ++
            [{ text := "❌ Error disconnecting: teardown failed", isUser := false,
               type := MsgType.text, externalData := none, isMarkdown := false }]) := by
  constructor
  · intro st
    obtain ⟨cs, pc, dc, ls, n, ch, ar⟩ := st
    cases pc <;> cases dc <;> cases ls <;>
      simp [disconnectWebSocket, disconnectBody, cleanDisconnectEnv, Except.bind, Except.pure, pure, bind, Except.instMonad]
  · intro env st
    obtain ⟨cs, pc, dc, ls, n, ch, ar⟩ := st
    obtain ⟨e1, e2, e3, e4⟩ := env
    cases pc <;> cases dc <;> cases ls <;> cases e1 <;> cases e2 <;> cases e3 <;>
        cases e4 <;>
      simp [disconnectWebSocket, disconnectBody, rtcAddMessage, Except.bind, Except.pure, pure, bind, Except.instMonad]

end LlamaHack
